import Mathlib

/-!
Shallow embedding of the Mundrack/Micro library-catalog service
(FastAPI + Beanie/pydantic v1 document models) and proofs about its
validation and service-layer behaviour.

Conventions of the embedding:
* `datetime` values are abstract monotone ticks (`Nat`).
* `date` values are `PyDate` triples (year, month, day).
* BSON `ObjectId` values are their 24-character hex string form; a
  string is a well-formed id iff it is 24 hex characters
  (`bson.ObjectId.is_valid` for strings).
* The document store is an association list keyed by id string.
* Python exceptions are `Except String`; a `try/except Exception`
  around a body is a `match` on the body's `Except` result.
* pydantic v1 validates fields in declaration order; the `values`
  argument of a `@validator` holds only the fields already validated.
  `int`-typed inventory fields are modelled as `Nat` because every
  write path enforces their `ge=0` constraint.
-/

/-- A Python `datetime.date` value (`date(year, month, day)`). -/
structure PyDate where
  year : Int
  month : Nat
  day : Nat
deriving DecidableEq

/-- `AuthorStatus` enum from src/app/models/author.py. -/
inductive AuthorStatus where
  | active
  | inactive
  | deceased
deriving DecidableEq

/-- `CategoryStatus` enum from src/app/models/category.py. -/
inductive CategoryStatus where
  | active
  | inactive
  | deprecated
deriving DecidableEq

/-- The `Book` document model (src/app/models/book.py lines 43-67):
field-for-field translation; `Indexed` wrappers and pydantic `Field`
descriptions carry no runtime state. -/
structure Book where
  title : String
  isbn : String
  author_id : String
  category_id : String
  description : Option String := none
  publication_date : Option Nat := none
  pages : Option Nat := none
  language : Option String := some "English"
  publisher : Option String := none
  available_copies : Nat := 1
  total_copies : Nat := 1
  tags : List String := []
  created_at : Nat := 0
  updated_at : Nat := 0
deriving DecidableEq

/-- The `Author` document model (src/app/models/author.py lines 54-78). -/
structure Author where
  name : String
  email : Option String := none
  biography : Option String := none
  birth_date : Option PyDate := none
  death_date : Option PyDate := none
  nationality : Option String := none
  website : Option String := none
  social_media : List (String × String) := []
  genres : List String := []
  awards : List String := []
  status : AuthorStatus := AuthorStatus.active
  book_count : Nat := 0
  created_at : Nat := 0
  updated_at : Nat := 0
deriving DecidableEq

/-- The `Category` document model (src/app/models/category.py lines 53-80). -/
structure Category where
  name : String
  description : Option String := none
  parent_id : Option String := none
  slug : String
  color : Option String := none
  icon : Option String := none
  sort_order : Int := 0
  is_featured : Bool := false
  keywords : List String := []
  book_count : Nat := 0
  status : CategoryStatus := CategoryStatus.active
  created_at : Nat := 0
  updated_at : Nat := 0
deriving DecidableEq

/-- `Book.is_available` (src/app/models/book.py lines 139-146):
`self.available_copies > 0`. -/
def Book.is_available (b : Book) : Bool :=
  b.available_copies > 0

/-- `Book.can_lend` (src/app/models/book.py lines 148-158):
`self.available_copies >= quantity`; the quantity parameter is a
Python `int`, so it is an `Int` here. -/
def Book.can_lend (b : Book) (quantity : Int := 1) : Bool :=
  (b.available_copies : Int) ≥ quantity

/-- The month/day comparison inside `Author.get_age`
(src/app/models/author.py lines 173-174): the end date's month/day
has not yet reached the birth month/day. -/
def monthDayBefore (em ed bm bd : Nat) : Bool :=
  em < bm || (em == bm && ed < bd)

/-- `Author.get_age` (src/app/models/author.py lines 159-177).
`date.today()` is passed explicitly as `today`. -/
def Author.get_age (a : Author) (today : PyDate) : Option Int :=
  match a.birth_date with
  | none => none
  | some b =>
    let e := a.death_date.getD today
    let age := e.year - b.year
    some (if monthDayBefore e.month e.day b.month b.day then age - 1 else age)

/-- `Author.is_active` (src/app/models/author.py lines 179-186). -/
def Author.is_active (a : Author) : Bool :=
  a.status = AuthorStatus.active

/-- Characters accepted by the slug character class `[a-z0-9-]`
(src/app/models/category.py line 104). -/
def slugAllowedChar (c : Char) : Bool :=
  ('a' ≤ c && c ≤ 'z') || ('0' ≤ c && c ≤ '9') || c == '-'

/-- `re.sub(r'-+', '-', slug)` (src/app/models/category.py line 107):
collapse every run of hyphens to a single hyphen.  `prev` is the last
character already emitted. -/
def collapseHyphens : Option Char → List Char → List Char
  | _, [] => []
  | prev, c :: cs =>
    if c == '-' && prev == some '-' then collapseHyphens prev cs
    else c :: collapseHyphens (some c) cs

/-- `slug.strip('-')` (src/app/models/category.py line 110): remove
leading and trailing hyphens. -/
def stripHyphens (l : List Char) : List Char :=
  ((((l.dropWhile (fun c => c == '-')).reverse).dropWhile (fun c => c == '-')).reverse)

/-- The normalization pipeline of `Category.validate_slug`
(src/app/models/category.py lines 99-110), applied outside-in:
lowercase (`v.lower()`), replace spaces with hyphens
(`.replace(' ', '-')`), drop characters outside `[a-z0-9-]`
(`re.sub(r'[^a-z0-9-]', '', ...)`), collapse hyphen runs
(`re.sub(r'-+', '-', ...)`), strip outer hyphens (`.strip('-')`). -/
def slugNormalize (l : List Char) : List Char :=
  stripHyphens (collapseHyphens none
    (((l.map Char.toLower).map (fun c => if c == ' ' then '-' else c)).filter
      slugAllowedChar))

/-- `Category.validate_slug` (src/app/models/category.py lines 82-115):
reject empty input (`if not v`), normalize, reject if nothing remains.
This is the `@validator` body alone; the `Field` regex that pydantic
checks before it is composed in `categorySlugField` below. -/
def validate_slug (v : String) : Except String String :=
  if v.data.isEmpty then Except.error "Slug cannot be empty"
  else if (slugNormalize v.data).isEmpty then
    Except.error "Slug must contain at least one alphanumeric character"
  else Except.ok (String.mk (slugNormalize v.data))

/-- ASCII decimal digit, the `\d` class over the inputs considered here. -/
def isAsciiDigit (c : Char) : Bool :=
  '0' ≤ c && c ≤ '9'

/-- Python `int(char)` on a single character: its digit value, or a
`ValueError` (`none`) when the character is not a digit. -/
def pyDigit? (c : Char) : Option Nat :=
  if isAsciiDigit c then some (c.toNat - 48) else none

/-- The per-character value used by `Book._validate_isbn10`
(src/app/models/book.py line 123): `int(char) if char != 'X' else 10`. -/
def isbn10CharVal? (c : Char) : Option Nat :=
  if c == 'X' then some 10 else pyDigit? c

/-- `sum((i + 1) * value)` over an enumerated list starting at index `i`
(src/app/models/book.py lines 123-124). -/
def isbn10Sum : Nat → List Nat → Nat
  | _, [] => 0
  | i, v :: vs => (i + 1) * v + isbn10Sum (i + 1) vs

/-- `Book._validate_isbn10` (src/app/models/book.py lines 119-127):
weighted sum of all ten characters must be divisible by 11; a
non-digit character other than `X` raises `ValueError`, caught as
`False`. -/
def _validate_isbn10 (isbn : String) : Bool :=
  match isbn.data.mapM isbn10CharVal? with
  | some vs => isbn10Sum 0 vs % 11 == 0
  | none => false

/-- `sum(int(char) * (1 if i % 2 == 0 else 3))` over an enumerated
digit list starting at index `i` (src/app/models/book.py lines 133-134). -/
def isbn13Sum : Nat → List Nat → Nat
  | _, [] => 0
  | i, d :: ds => d * (if i % 2 == 0 then 1 else 3) + isbn13Sum (i + 1) ds

/-- `Book._validate_isbn13` (src/app/models/book.py lines 129-137):
weighted sum over `isbn[:-1]`, then
`(10 - (check_sum % 10)) % 10 == int(isbn[-1])`; a non-digit raises
`ValueError`, caught as `False`.  (`validate_isbn` only calls this on
13-character strings, so the empty case never arises.) -/
def _validate_isbn13 (isbn : String) : Bool :=
  match (isbn.data.dropLast).mapM pyDigit?, isbn.data.getLast? with
  | some body, some lastc =>
    match pyDigit? lastc with
    | some lastd => (10 - isbn13Sum 0 body % 10) % 10 == lastd
    | none => false
  | _, _ => false

/-- `v.replace('-', '').replace(' ', '')` (src/app/models/book.py
line 104): single-character replacement by the empty string is
character filtering. -/
def stripIsbn (v : String) : String :=
  String.mk (v.data.filter (fun c => !(c == '-') && !(c == ' ')))

/-- `Book.validate_isbn` (src/app/models/book.py lines 89-117): strip
hyphens and spaces, then dispatch on the remaining length. -/
def validate_isbn (v : String) : Except String String :=
  let isbn := stripIsbn v
  if isbn.data.length == 10 then
    if _validate_isbn10 isbn then Except.ok isbn
    else Except.error "Invalid ISBN-10 check digit"
  else if isbn.data.length == 13 then
    if _validate_isbn13 isbn then Except.ok isbn
    else Except.error "Invalid ISBN-13 check digit"
  else Except.error "ISBN must be 10 or 13 digits"

/-- The pydantic `Field` regex on `Book.isbn` (src/app/models/book.py
line 45): the raw value must match the anchored pattern
`(?:\d{9}[\dX]|\d{13})` in full. -/
def isbnFieldRegex (s : String) : Bool :=
  (s.data.length == 13 && s.data.all isAsciiDigit) ||
  (s.data.length == 10 && (s.data.dropLast).all isAsciiDigit &&
    (match s.data.getLast? with
     | some c => isAsciiDigit c || c == 'X'
     | none => false))

/-- The full pydantic validation of the `Book.isbn` field: the `Field`
regex constraint is part of standard field validation and runs before
the custom `@validator('isbn')`, so `validate_isbn` only ever sees
regex-matching values. -/
def bookIsbnField (v : String) : Except String String :=
  if isbnFieldRegex v then validate_isbn v
  else Except.error "string does not match regex"

/-- `values.get(key, dflt)` on the pydantic v1 `values` dict, restricted
to the `int`-typed fields that can appear in it. -/
def pvGet (values : List (String × Nat)) (key : String) (dflt : Nat) : Nat :=
  match values.lookup key with
  | some v => v
  | none => dflt

/-- `Book.validate_available_copies` and the identical
`BookCreate.validate_available_copies`
(src/app/models/book.py lines 69-87, src/app/schemas/book_schema.py
lines 63-69): compare against `values.get('total_copies', 1)`. -/
def validate_available_copies (v : Nat) (values : List (String × Nat)) :
    Except String Nat :=
  let total_copies := pvGet values "total_copies" 1
  if v > total_copies then
    Except.error "Available copies cannot exceed total copies"
  else Except.ok v

/-- `BookUpdate.validate_available_copies`
(src/app/schemas/book_schema.py lines 111-117): all fields are
`Optional[int]`, the lookup `values.get('total_copies')` has no
default, and the check fires only when `v` and the lookup are both
non-`None`. -/
def bookUpdate_validate_available_copies (v : Option Nat)
    (values : List (String × Option Nat)) : Except String (Option Nat) :=
  let total_copies : Option Nat := (values.lookup "total_copies").getD none
  match v, total_copies with
  | some vv, some tc =>
    if vv > tc then
      Except.error "Available copies cannot exceed total copies"
    else Except.ok v
  | _, _ => Except.ok v

/-- The inventory slice of pydantic field validation for `Book` and
`BookCreate`.  pydantic v1 validates fields in declaration order;
`available_copies` (src/app/models/book.py line 59,
src/app/schemas/book_schema.py line 51) is declared before
`total_copies` (line 60 resp. 52), so when
`validate_available_copies` runs, `"total_copies"` is not yet in
`values`; the only earlier `int`-typed field is `pages`.  The `ge=0`
bound on `available_copies` is the `Nat` type; the `ge=1` bound on
`total_copies` is checked after it. -/
def bookInventoryValidation (pages : Option Nat)
    (available_copies total_copies : Nat) : Except String (Nat × Nat) :=
  let values : List (String × Nat) :=
    match pages with
    | some p => [("pages", p)]
    | none => []
  match validate_available_copies available_copies values with
  | Except.error e => Except.error e
  | Except.ok av =>
    if total_copies < 1 then
      Except.error "ensure this value is greater than or equal to 1"
    else Except.ok (av, total_copies)

/-- The inventory slice of pydantic field validation for `BookUpdate`:
same declaration order, so the lookup of `"total_copies"` again misses;
every previously validated field (here `pages`) is present with its
possibly-`None` value. -/
def bookUpdateInventoryValidation (pages : Option Nat)
    (available_copies total_copies : Option Nat) :
    Except String (Option Nat × Option Nat) :=
  let values : List (String × Option Nat) := [("pages", pages)]
  match bookUpdate_validate_available_copies available_copies values with
  | Except.error e => Except.error e
  | Except.ok av =>
    match total_copies with
    | some tc =>
      if tc < 1 then
        Except.error "ensure this value is greater than or equal to 1"
      else Except.ok (av, total_copies)
    | none => Except.ok (av, total_copies)


/-- `bson.ObjectId` hex characters. -/
def isHexChar (c : Char) : Bool :=
  isAsciiDigit c || ('a' ≤ c && c ≤ 'f') || ('A' ≤ c && c ≤ 'F')

/-- `bson.ObjectId.is_valid` on a string: exactly 24 hex characters. -/
def isValidObjectId (s : String) : Bool :=
  s.data.length == 24 && s.data.all isHexChar

/-- `ObjectId(s)`: the id itself, or an `InvalidId` exception. -/
def objectIdOf (s : String) : Except String String :=
  if isValidObjectId s then Except.ok s else Except.error "InvalidId"

/-- The document store reached through Beanie: one association list
per collection, keyed by id string. -/
structure LibraryState where
  books : List (String × Book) := []
  authors : List (String × Author) := []
  categories : List (String × Category) := []

/-- `document.save()`: replace the stored document with this id. -/
def saveDoc {α : Type} (docs : List (String × α)) (k : String) (v : α) :
    List (String × α) :=
  docs.map (fun p => if p.fst = k then (k, v) else p)

/-- The `try` body of `BookServiceImpl.get_book_by_id`
(src/app/services/impl/book_service_impl.py lines 33-35):
`ObjectId(book_id)` may raise; `Book.get` returns the document or
`None`. -/
def get_book_by_id_body (st : LibraryState) (book_id : String) :
    Except String (Option Book) :=
  match objectIdOf book_id with
  | Except.ok oid => Except.ok (st.books.lookup oid)
  | Except.error e => Except.error e

/-- `BookServiceImpl.get_book_by_id`
(src/app/services/impl/book_service_impl.py lines 31-37): the whole
body is wrapped in `try: ... except Exception: return None`. -/
def get_book_by_id (st : LibraryState) (book_id : String) : Option Book :=
  match get_book_by_id_body st book_id with
  | Except.ok r => r
  | Except.error _ => none

/-- The `try` body of `AuthorServiceImpl.get_author_by_id`
(src/app/services/impl/author_service_impl.py lines 30-32). -/
def get_author_by_id_body (st : LibraryState) (author_id : String) :
    Except String (Option Author) :=
  match objectIdOf author_id with
  | Except.ok oid => Except.ok (st.authors.lookup oid)
  | Except.error e => Except.error e

/-- `AuthorServiceImpl.get_author_by_id`
(src/app/services/impl/author_service_impl.py lines 28-34). -/
def get_author_by_id (st : LibraryState) (author_id : String) : Option Author :=
  match get_author_by_id_body st author_id with
  | Except.ok r => r
  | Except.error _ => none

/-- The `BookCreate` schema (src/app/schemas/book_schema.py lines
34-88) after successful pydantic validation; `author_id` and
`category_id` went through `PyObjectId.validate`. -/
structure BookCreate where
  title : String
  isbn : String
  author_id : String
  category_id : String
  description : Option String := none
  publication_date : Option Nat := none
  pages : Option Nat := none
  language : Option String := some "English"
  publisher : Option String := none
  available_copies : Nat := 1
  total_copies : Nat := 1
  tags : List String := []

/-- The `BookUpdate` schema (src/app/schemas/book_schema.py lines
90-127) after validation; `some` marks a field that was explicitly
supplied, matching `model_dump(exclude_unset=True)`. -/
structure BookUpdate where
  title : Option String := none
  isbn : Option String := none
  author_id : Option String := none
  category_id : Option String := none
  description : Option String := none
  publication_date : Option Nat := none
  pages : Option Nat := none
  language : Option String := none
  publisher : Option String := none
  available_copies : Option Nat := none
  total_copies : Option Nat := none
  tags : Option (List String) := none

/-- `if update_data:` — the dict from `model_dump(exclude_unset=True)`
is non-empty iff some field was supplied. -/
def BookUpdate.hasAnyField (u : BookUpdate) : Bool :=
  u.title.isSome || u.isbn.isSome || u.author_id.isSome ||
  u.category_id.isSome || u.description.isSome ||
  u.publication_date.isSome || u.pages.isSome || u.language.isSome ||
  u.publisher.isSome || u.available_copies.isSome ||
  u.total_copies.isSome || u.tags.isSome

/-- A supplied optional field overrides the stored optional field. -/
def updOpt {α : Type} (field : Option α) (old : Option α) : Option α :=
  match field with
  | some v => some v
  | none => old

/-- The `setattr` loop of `BookServiceImpl.update_book`
(src/app/services/impl/book_service_impl.py lines 54-64): each
supplied field overwrites the document attribute, and
`updated_at` is set to `datetime.utcnow()` (`now`).  Assignment does
not re-run validators (`validate_assignment` is not enabled and
Beanie does not validate on save by default). -/
def applyBookUpdate (b : Book) (u : BookUpdate) (now : Nat) : Book :=
  { title := u.title.getD b.title,
    isbn := u.isbn.getD b.isbn,
    author_id := u.author_id.getD b.author_id,
    category_id := u.category_id.getD b.category_id,
    description := updOpt u.description b.description,
    publication_date := updOpt u.publication_date b.publication_date,
    pages := updOpt u.pages b.pages,
    language := updOpt u.language b.language,
    publisher := updOpt u.publisher b.publisher,
    available_copies := u.available_copies.getD b.available_copies,
    total_copies := u.total_copies.getD b.total_copies,
    tags := u.tags.getD b.tags,
    created_at := b.created_at,
    updated_at := now }

/-- `BookServiceImpl.update_book`
(src/app/services/impl/book_service_impl.py lines 44-68): load by id
(raising `BookNotFoundException` when absent), apply only the supplied
fields plus a fresh `updated_at`, save, return the book.  When no
field was supplied, nothing is written. -/
def update_book (st : LibraryState) (book_id : String) (u : BookUpdate)
    (now : Nat) : Except String (LibraryState × Book) :=
  match get_book_by_id st book_id with
  | none => Except.error "BookNotFoundException"
  | some book =>
    if u.hasAnyField then
      let book2 := applyBookUpdate book u now
      Except.ok ({ st with books := saveDoc st.books book_id book2 }, book2)
    else Except.ok (st, book)

/-- `BookServiceImpl.create_book`
(src/app/services/impl/book_service_impl.py lines 15-29).  The body
reads `book_data.published_date` (line 20) and `book_data.available`
(line 21), attributes the `BookCreate` schema does not define, so
every call raises `AttributeError` before any store operation. -/
def create_book (_st : LibraryState) (_book_data : BookCreate) :
    Except String (LibraryState × Book) :=
  Except.error "AttributeError: BookCreate has no field published_date"

/-- `AuthorServiceImpl.delete_author`
(src/app/services/impl/author_service_impl.py lines 61-68): load by id
(raising `LibraryException` when absent) and delete the document; no
other check is made. -/
def delete_author (st : LibraryState) (author_id : String) :
    Except String (LibraryState × Bool) :=
  match get_author_by_id st author_id with
  | none => Except.error "LibraryException: Autor no encontrado"
  | some _ =>
    Except.ok
      ({ st with authors := st.authors.filter (fun p => !(p.fst == author_id)) },
       true)

/- ------------------------------------------------------------------ -/
/- Helper lemmas and concrete fixtures                                 -/
/- ------------------------------------------------------------------ -/

/-- The empty document store. -/
def emptyState : LibraryState := {}

/-- Example ids (24 hex characters each, as in the schema examples). -/
def exAuthorId : String := "507f1f77bcf86cd799439011"

def exCategoryId : String := "507f1f77bcf86cd799439012"

def exBookId : String := "507f1f77bcf86cd799439013"

/-- A hex id that no stored Author carries in the fixtures below. -/
def danglingAuthorId : String := "aaaaaaaaaaaaaaaaaaaaaaaa"

/-- A stored book fixture (the schema example book). -/
def gatsbyBook : Book :=
  { title := "The Great Gatsby",
    isbn := "9780743273565",
    author_id := exAuthorId,
    category_id := exCategoryId,
    available_copies := 1,
    total_copies := 5 }

/-- A store holding exactly `gatsbyBook` and no authors or categories. -/
def gatsbyState : LibraryState := { books := [(exBookId, gatsbyBook)] }

lemma monthDayBefore_eq (em ed bm bd : Nat) :
    monthDayBefore em ed bm bd = decide (em < bm ∨ (em = bm ∧ ed < bd)) := by
  by_cases h1 : em < bm <;> by_cases h2 : em = bm <;> by_cases h3 : ed < bd <;>
    simp [monthDayBefore, h1, h2, h3]

/-- The claim's reading of `get_age`: the year difference between the
two dates, decremented by one when the end month/day precedes the
birth month/day. -/
def wholeYearsBetween (b e : PyDate) : Int :=
  if e.month < b.month ∨ (e.month = b.month ∧ e.day < b.day) then
    e.year - b.year - 1
  else e.year - b.year

/-- The author of the spec's worked example. -/
def fitzgerald : Author :=
  { name := "F. Scott Fitzgerald",
    birth_date := some ⟨1896, 9, 24⟩,
    death_date := some ⟨1940, 12, 21⟩,
    status := AuthorStatus.deceased }

lemma get_book_by_id_some {st : LibraryState} {book_id : String} {b : Book}
    (h : get_book_by_id st book_id = some b) :
    isValidObjectId book_id = true ∧ st.books.lookup book_id = some b := by
  by_cases hv : isValidObjectId book_id
  · refine ⟨hv, ?_⟩
    simpa [get_book_by_id, get_book_by_id_body, objectIdOf, hv] using h
  · simp [get_book_by_id, get_book_by_id_body, objectIdOf, hv] at h

lemma lookup_saveDoc {α : Type} (docs : List (String × α)) (k : String)
    (v w : α) (h : docs.lookup k = some w) :
    (saveDoc docs k v).lookup k = some v := by
  induction docs with
  | nil => simp [List.lookup] at h
  | cons p rest ih =>
    obtain ⟨a, b⟩ := p
    by_cases hak : a = k
    · subst hak
      have hsave : saveDoc ((a, b) :: rest) a v = (a, v) :: saveDoc rest a v := by
        simp [saveDoc]
      rw [hsave]
      simp [List.lookup]
    · have hsave : saveDoc ((a, b) :: rest) k v = (a, b) :: saveDoc rest k v := by
        simp [saveDoc, if_neg hak]
      rw [hsave]
      have h1 : (k == a) = false := beq_eq_false_iff_ne.mpr (Ne.symm hak)
      simp only [List.lookup, h1] at h ⊢
      exact ih h

/- ------------------------------------------------------------------ -/
/- Claims                                                              -/
/- ------------------------------------------------------------------ -/

/-- C10: for every Book, `is_available()` agrees with `can_lend(1)`,
`can_lend(0)` is always true, and `can_lend` is downward closed in the
quantity. -/
theorem C10_availability (b : Book) :
    b.is_available = b.can_lend 1 ∧
    b.can_lend 0 = true ∧
    ∀ m n : Int, m ≤ n → b.can_lend n = true → b.can_lend m = true := by
  refine ⟨?_, ?_, ?_⟩
  · simp only [Book.is_available, Book.can_lend, ge_iff_le, gt_iff_lt,
      decide_eq_decide]
    omega
  · simp only [Book.can_lend, ge_iff_le, decide_eq_true_eq]
    omega
  · intro m n hmn h
    simp only [Book.can_lend, ge_iff_le, decide_eq_true_eq] at h ⊢
    omega

/-- C10 witness: a concrete book with three available copies can lend
two because it can lend three. -/
theorem C10_availability_witness :
    Book.can_lend { gatsbyBook with available_copies := 3 } 2 = true :=
  (C10_availability { gatsbyBook with available_copies := 3 }).2.2 2 3
    (by decide) (by decide)

/-- C9: `get_age()` is `None` without a birth date; with one, it is the
whole-year difference to the death date when set (otherwise to the
current date), decremented when the end month/day precedes the birth
month/day; on birth 1896-09-24 and death 1940-12-21 it is 44. -/
theorem C9_get_age (a : Author) (today : PyDate) :
    (a.birth_date = none → a.get_age today = none) ∧
    (∀ b, a.birth_date = some b →
      a.get_age today = some (wholeYearsBetween b (a.death_date.getD today))) ∧
    fitzgerald.get_age ⟨2026, 10, 12⟩ = some 44 := by
  refine ⟨?_, ?_, by decide⟩
  · intro h
    simp [Author.get_age, h]
  · intro b h
    simp only [Author.get_age, h]
    rw [monthDayBefore_eq]
    simp only [wholeYearsBetween]
    by_cases hc : (a.death_date.getD today).month < b.month ∨
        ((a.death_date.getD today).month = b.month ∧
          (a.death_date.getD today).day < b.day) <;>
      simp [hc]

/-- C9 witness: the theorem applied to the example author, whose birth
date is set, and to an author with no birth date. -/
theorem C9_get_age_witness :
    fitzgerald.get_age ⟨2026, 10, 12⟩ =
      some (wholeYearsBetween ⟨1896, 9, 24⟩ ⟨1940, 12, 21⟩) ∧
    Author.get_age { name := "Anonymous" } ⟨2026, 10, 12⟩ = none :=
  ⟨(C9_get_age fitzgerald ⟨2026, 10, 12⟩).2.1 ⟨1896, 9, 24⟩ rfl,
   (C9_get_age { name := "Anonymous" } ⟨2026, 10, 12⟩).1 rfl⟩

/-- C8 counterexample: on an id that is not a well-formed ObjectId the
inner body raises `InvalidId`, but `get_book_by_id` swallows it and
returns the not-found indicator `None` instead of failing with an
invalid-identifier error as the claim states. -/
theorem C8_invalid_id_counterexample :
    get_book_by_id_body emptyState "not-an-object-id" =
      Except.error "InvalidId" ∧
    get_book_by_id emptyState "not-an-object-id" = none := by
  exact ⟨rfl, rfl⟩

/-- C8 as amended: `get_book_by_id` is total and never surfaces an
error; a well-formed id yields the store lookup (the entity or `none`),
and an ill-formed id yields `none` as well because the whole body is
wrapped in `except Exception: return None`. -/
theorem C8_get_book_by_id_total (st : LibraryState) (book_id : String) :
    (isValidObjectId book_id = false → get_book_by_id st book_id = none) ∧
    (isValidObjectId book_id = true →
      get_book_by_id st book_id = st.books.lookup book_id) := by
  constructor <;> intro h <;>
    simp [get_book_by_id, get_book_by_id_body, objectIdOf, h]

/-- C8 witness: both branches of the amended statement at concrete
inputs. -/
theorem C8_get_book_by_id_total_witness :
    get_book_by_id gatsbyState "zzz" = none ∧
    get_book_by_id gatsbyState exBookId = some gatsbyBook :=
  ⟨(C8_get_book_by_id_total gatsbyState "zzz").1 rfl,
   by rw [(C8_get_book_by_id_total gatsbyState exBookId).2 rfl]; rfl⟩

/-- C1: the inventory rule `available_copies <= total_copies` is stated
in the validators' own docstrings and error message, but the
implementation compares against `values.get('total_copies', 1)` before
`total_copies` has been validated (pydantic processes fields in
declaration order), so creating with `available_copies=3,
total_copies=5` is wrongly rejected; and `BookUpdate`'s validator never
fires (its lookup of `total_copies` always misses), so updating a book
whose `total_copies` is 5 to `available_copies=6` is accepted and
persists a book with `available_copies > total_copies`. -/
theorem C1_inventory_validator_bug :
    bookInventoryValidation none 3 5 =
      Except.error "Available copies cannot exceed total copies" ∧
    bookUpdateInventoryValidation none (some 6) none =
      Except.ok (some 6, none) ∧
    (match update_book gatsbyState exBookId { available_copies := some 6 } 1 with
     | Except.ok (st2, _) =>
       (get_book_by_id st2 exBookId).map
         (fun b => (b.available_copies, b.total_copies))
     | Except.error _ => none) = some (6, 5) := by
  exact ⟨rfl, rfl, rfl⟩

/-- C3: contrary to the claim (and to the interface docstrings that
say "verify author and category exist"), the service checks nothing:
`create_book` always raises `AttributeError` because it reads
attributes `BookCreate` does not define, and `update_book` persists an
`author_id` that identifies no stored Author (the store's author
collection is empty here) without any error. -/
theorem C3_no_reference_check :
    (∀ st d, create_book st d =
      Except.error "AttributeError: BookCreate has no field published_date") ∧
    gatsbyState.authors = [] ∧
    (match update_book gatsbyState exBookId { author_id := some danglingAuthorId } 1 with
     | Except.ok (st2, _) =>
       (get_book_by_id st2 exBookId).map (fun b => (b.author_id, st2.authors))
     | Except.error _ => none) = some (danglingAuthorId, []) := by
  exact ⟨fun _ _ => rfl, rfl, rfl⟩

/-- A store with one author and one book whose `author_id` references
that author. -/
def dependentState : LibraryState :=
  { books := [(exBookId, { gatsbyBook with author_id := danglingAuthorId })],
    authors := [(danglingAuthorId, { name := "Jane Roe" })] }

/-- C4: contrary to the claim (and to the interface docstring that says
deletion raises when the author has associated books), `delete_author`
deletes unconditionally: with one book referencing the author, the
delete succeeds, the author is removed, and the dependent book remains. -/
theorem C4_delete_author_ignores_dependents :
    dependentState.books.any (fun p => p.snd.author_id == danglingAuthorId) =
      true ∧
    (match delete_author dependentState danglingAuthorId with
     | Except.ok (st2, flag) =>
       some (flag, st2.authors.lookup danglingAuthorId, st2.books.length)
     | Except.error _ => none) = some (true, none, 1) := by
  exact ⟨rfl, rfl⟩

/-- The `BookUpdate` carrying only a title, i.e. the request body
only supplied the field `title`. -/
def titleOnlyUpdate (t : String) : BookUpdate := { title := some t }

/-- C5: updating an existing book with only `title` supplied stores the
new title, refreshes `updated_at` to the update time (strictly later,
the clock having advanced since the last write), and leaves every
other field unchanged. -/
theorem C5_update_title_frame (st : LibraryState) (book_id t : String)
    (b : Book) (now : Nat) (hb : get_book_by_id st book_id = some b)
    (hnow : b.updated_at < now) :
    ∃ st2 b2,
      update_book st book_id (titleOnlyUpdate t) now = Except.ok (st2, b2) ∧
      get_book_by_id st2 book_id = some b2 ∧
      b2.title = t ∧ b2.updated_at = now ∧ b.updated_at < b2.updated_at ∧
      b2.isbn = b.isbn ∧ b2.author_id = b.author_id ∧
      b2.category_id = b.category_id ∧ b2.description = b.description ∧
      b2.publication_date = b.publication_date ∧ b2.pages = b.pages ∧
      b2.language = b.language ∧ b2.publisher = b.publisher ∧
      b2.available_copies = b.available_copies ∧
      b2.total_copies = b.total_copies ∧ b2.tags = b.tags ∧
      b2.created_at = b.created_at := by
  obtain ⟨hv, hl⟩ := get_book_by_id_some hb
  refine ⟨{ st with books := saveDoc st.books book_id (applyBookUpdate b (titleOnlyUpdate t) now) },
    applyBookUpdate b (titleOnlyUpdate t) now, ?_, ?_, ?_⟩
  · rw [update_book, hb]
    rfl
  · simp only [get_book_by_id, get_book_by_id_body, objectIdOf, hv, if_true]
    exact lookup_saveDoc st.books book_id _ b hl
  · refine ⟨rfl, rfl, hnow, rfl, rfl, rfl, rfl, rfl, rfl, rfl, rfl, rfl, rfl, rfl, rfl⟩

/-- C5 witness: the frame property at a concrete store, book and
update time. -/
theorem C5_update_title_frame_witness :
    ∃ st2 b2,
      update_book gatsbyState exBookId (titleOnlyUpdate "New") 7 =
        Except.ok (st2, b2) ∧
      get_book_by_id st2 exBookId = some b2 ∧
      b2.title = "New" ∧ b2.updated_at = 7 ∧
      gatsbyBook.updated_at < b2.updated_at ∧
      b2.isbn = gatsbyBook.isbn ∧ b2.author_id = gatsbyBook.author_id ∧
      b2.category_id = gatsbyBook.category_id ∧
      b2.description = gatsbyBook.description ∧
      b2.publication_date = gatsbyBook.publication_date ∧
      b2.pages = gatsbyBook.pages ∧ b2.language = gatsbyBook.language ∧
      b2.publisher = gatsbyBook.publisher ∧
      b2.available_copies = gatsbyBook.available_copies ∧
      b2.total_copies = gatsbyBook.total_copies ∧
      b2.tags = gatsbyBook.tags ∧ b2.created_at = gatsbyBook.created_at :=
  C5_update_title_frame gatsbyState exBookId "New" gatsbyBook 7 rfl
    (by decide)

/- ------------------------------------------------------------------ -/
/- C6: slug normalization                                              -/
/- ------------------------------------------------------------------ -/

lemma mem_of_mem_dropWhile {α : Type} (p : α → Bool) (l : List α) (c : α)
    (h : c ∈ l.dropWhile p) : c ∈ l := by
  induction l with
  | nil => simp at h
  | cons a as ih =>
    rw [List.dropWhile_cons] at h
    by_cases hp : p a = true
    · rw [if_pos hp] at h
      exact List.mem_cons_of_mem a (ih h)
    · rw [if_neg hp] at h
      exact h

lemma mem_of_mem_stripHyphens (l : List Char) (c : Char)
    (h : c ∈ stripHyphens l) : c ∈ l := by
  unfold stripHyphens at h
  rw [List.mem_reverse] at h
  have h2 := mem_of_mem_dropWhile _ _ _ h
  rw [List.mem_reverse] at h2
  exact mem_of_mem_dropWhile _ _ _ h2

lemma mem_of_mem_collapseHyphens (l : List Char) :
    ∀ prev c, c ∈ collapseHyphens prev l → c ∈ l := by
  induction l with
  | nil =>
    intro prev c h
    simp [collapseHyphens] at h
  | cons a as ih =>
    intro prev c h
    have he : collapseHyphens prev (a :: as) =
        if a == '-' && prev == some '-' then collapseHyphens prev as
        else a :: collapseHyphens (some a) as := rfl
    by_cases hc : (a == '-' && prev == some '-') = true
    · rw [he, if_pos hc] at h
      exact List.mem_cons_of_mem a (ih prev c h)
    · rw [he, if_neg hc] at h
      rcases List.mem_cons.mp h with h | h
      · exact h ▸ List.mem_cons_self a as
      · exact List.mem_cons_of_mem a (ih (some a) c h)

lemma head?_dropWhile_false {α : Type} (p : α → Bool) (l : List α) (c : α)
    (h : (l.dropWhile p).head? = some c) : p c = false := by
  induction l with
  | nil => simp at h
  | cons a as ih =>
    rw [List.dropWhile_cons] at h
    by_cases hp : p a = true
    · rw [if_pos hp] at h
      exact ih h
    · rw [if_neg hp] at h
      have : a = c := by simpa using h
      subst this
      exact Bool.eq_false_iff.mpr hp

lemma getLast?_dropWhile {α : Type} (p : α → Bool) (l : List α)
    (h : l.dropWhile p ≠ []) : (l.dropWhile p).getLast? = l.getLast? := by
  induction l with
  | nil => simp at h
  | cons a as ih =>
    rw [List.dropWhile_cons]
    by_cases hp : p a = true
    · rw [List.dropWhile_cons, if_pos hp] at h
      rw [if_pos hp, ih h]
      cases as with
      | nil => simp [List.dropWhile] at h
      | cons b m => rw [List.getLast?_cons_cons]
    · rw [if_neg hp]

lemma stripHyphens_getLast?_ne (l : List Char) (c : Char)
    (h : (stripHyphens l).getLast? = some c) : c ≠ '-' := by
  unfold stripHyphens at h
  rw [List.getLast?_reverse] at h
  have := head?_dropWhile_false _ _ _ h
  simpa using this

lemma stripHyphens_head?_ne (l : List Char) (c : Char)
    (h : (stripHyphens l).head? = some c) : c ≠ '-' := by
  unfold stripHyphens at h
  rw [List.head?_reverse] at h
  have hne : (((l.dropWhile (fun c => c == '-')).reverse).dropWhile
      (fun c => c == '-')) ≠ [] := by
    intro he
    rw [he] at h
    simp at h
  rw [getLast?_dropWhile _ _ hne, List.getLast?_reverse] at h
  have := head?_dropWhile_false _ _ _ h
  simpa using this

/-- No two consecutive hyphens occur in the list. -/
def noDoubleHyphen : List Char → Bool
  | [] => true
  | [_] => true
  | a :: b :: rest => !(a == '-' && b == '-') && noDoubleHyphen (b :: rest)

lemma collapseHyphens_head?_ne (l : List Char) :
    ∀ c, (collapseHyphens (some '-') l).head? = some c → (c == '-') = false := by
  induction l with
  | nil =>
    intro c h
    simp [collapseHyphens] at h
  | cons a as ih =>
    intro c h
    have he : collapseHyphens (some '-') (a :: as) =
        if a == '-' && some '-' == some '-' then collapseHyphens (some '-') as
        else a :: collapseHyphens (some a) as := rfl
    by_cases ha : (a == '-') = true
    · rw [he, if_pos (by rw [ha]; rfl)] at h
      exact ih c h
    · have hc : ¬((a == '-' && some '-' == some '-') = true) := by
        intro hx
        rw [Bool.and_eq_true] at hx
        exact ha hx.1
      rw [he, if_neg hc] at h
      have : a = c := by simpa using h
      subst this
      exact Bool.eq_false_iff.mpr ha

lemma noDoubleHyphen_cons (a : Char) (l : List Char)
    (h1 : noDoubleHyphen l = true)
    (h2 : ∀ b, l.head? = some b → (a == '-' && b == '-') = false) :
    noDoubleHyphen (a :: l) = true := by
  cases l with
  | nil => rfl
  | cons b rest =>
    show (!(a == '-' && b == '-') && noDoubleHyphen (b :: rest)) = true
    rw [h2 b rfl, h1]
    rfl

lemma collapseHyphens_noDouble (l : List Char) :
    ∀ prev, noDoubleHyphen (collapseHyphens prev l) = true := by
  induction l with
  | nil => intro prev; rfl
  | cons a as ih =>
    intro prev
    have he : collapseHyphens prev (a :: as) =
        if a == '-' && prev == some '-' then collapseHyphens prev as
        else a :: collapseHyphens (some a) as := rfl
    by_cases hc : (a == '-' && prev == some '-') = true
    · rw [he, if_pos hc]
      exact ih prev
    · rw [he, if_neg hc]
      apply noDoubleHyphen_cons
      · exact ih (some a)
      · intro b hb
        by_cases ha : (a == '-') = true
        · have ha2 : a = '-' := by simpa using ha
        
          have hbne : (b == '-') = false := by
            apply collapseHyphens_head?_ne as b
            rw [← ha2]
            exact hb
          rw [hbne]
          simp
        · rw [Bool.eq_false_iff.mpr ha]
          rfl

lemma noDoubleHyphen_tail (a : Char) (l : List Char)
    (h : noDoubleHyphen (a :: l) = true) : noDoubleHyphen l = true := by
  cases l with
  | nil => rfl
  | cons b rest =>
    have h2 : (!(a == '-' && b == '-') && noDoubleHyphen (b :: rest)) = true := h
    rw [Bool.and_eq_true] at h2
    exact h2.2

lemma noDoubleHyphen_dropWhile (p : Char → Bool) (l : List Char)
    (h : noDoubleHyphen l = true) : noDoubleHyphen (l.dropWhile p) = true := by
  induction l with
  | nil => exact h
  | cons a as ih =>
    rw [List.dropWhile_cons]
    by_cases hp : p a = true
    · rw [if_pos hp]
      exact ih (noDoubleHyphen_tail a as h)
    · rw [if_neg hp]
      exact h

lemma noDoubleHyphen_iff_chain (l : List Char) :
    noDoubleHyphen l = true ↔ l.Chain' (fun a b => ¬(a = '-' ∧ b = '-')) := by
  induction l with
  | nil => simp [noDoubleHyphen]
  | cons a as ih =>
    cases as with
    | nil => simp [noDoubleHyphen]
    | cons b rest =>
      rw [List.chain'_cons]
      constructor
      · intro h
        have h2 : (!(a == '-' && b == '-') && noDoubleHyphen (b :: rest)) = true := h
        rw [Bool.and_eq_true] at h2
        obtain ⟨hx, hy⟩ := h2
        refine ⟨?_, ih.mp hy⟩
        rintro ⟨rfl, rfl⟩
        simp at hx
      · rintro ⟨hr, hc⟩
        show (!(a == '-' && b == '-') && noDoubleHyphen (b :: rest)) = true
        rw [ih.mpr hc]
        have hb : (a == '-' && b == '-') = false := by
          by_cases e1 : a = '-'
          · by_cases e2 : b = '-'
            · exact absurd ⟨e1, e2⟩ hr
            · simp [e2]
          · simp [e1]
        rw [hb]
        rfl

lemma noDoubleHyphen_reverse (l : List Char) :
    noDoubleHyphen l.reverse = noDoubleHyphen l := by
  have h3 : l.reverse.Chain' (fun a b => ¬(a = '-' ∧ b = '-')) ↔
      l.Chain' (fun a b => ¬(a = '-' ∧ b = '-')) := by
    rw [List.chain'_reverse]
    constructor <;>
      exact fun h => h.imp (fun a b hab hx => hab ⟨hx.2, hx.1⟩)
  by_cases hl : noDoubleHyphen l = true
  · rw [hl]
    exact (noDoubleHyphen_iff_chain l.reverse).mpr
      (h3.mpr ((noDoubleHyphen_iff_chain l).mp hl))
  · rw [Bool.eq_false_iff.mpr hl]
    refine Bool.eq_false_iff.mpr (fun hr => hl ?_)
    exact (noDoubleHyphen_iff_chain l).mpr
      (h3.mp ((noDoubleHyphen_iff_chain l.reverse).mp hr))

lemma stripHyphens_noDouble (l : List Char)
    (h : noDoubleHyphen l = true) : noDoubleHyphen (stripHyphens l) = true := by
  unfold stripHyphens
  rw [noDoubleHyphen_reverse]
  apply noDoubleHyphen_dropWhile
  rw [noDoubleHyphen_reverse]
  exact noDoubleHyphen_dropWhile _ _ h

lemma slugNormalize_props (l : List Char) :
    (∀ c ∈ slugNormalize l, slugAllowedChar c = true) ∧
    noDoubleHyphen (slugNormalize l) = true ∧
    (∀ c, (slugNormalize l).head? = some c → c ≠ '-') ∧
    (∀ c, (slugNormalize l).getLast? = some c → c ≠ '-') := by
  refine ⟨?_, ?_, ?_, ?_⟩
  · intro c hc
    have h1 := mem_of_mem_stripHyphens _ _ hc
    have h2 := mem_of_mem_collapseHyphens _ _ _ h1
    exact (List.mem_filter.mp h2).2
  · exact stripHyphens_noDouble _ (collapseHyphens_noDouble _ none)
  · exact fun c => stripHyphens_head?_ne _ c
  · exact fun c => stripHyphens_getLast?_ne _ c

/-- The pydantic `Field` regex on `Category.slug`
(src/app/models/category.py line 63, mirrored at
src/app/schemas/category_schema.py lines 24 and 87): the raw value
must match the anchored pattern `[a-z0-9-]+` in full, i.e. be a
non-empty string of lower-case letters, digits and hyphens. -/
def slugFieldRegex (s : String) : Bool :=
  !s.data.isEmpty && s.data.all slugAllowedChar

/-- The full pydantic validation of the `Category.slug` field: the
`Field` regex constraint is part of standard field validation and runs
before the custom `@validator('slug')`, so `validate_slug` only ever
sees regex-matching values. -/
def categorySlugField (v : String) : Except String String :=
  if slugFieldRegex v then validate_slug v
  else Except.error "string does not match regex"

/-- C6 counterexample: the slug `Field` regex runs before the
normalizing validator and admits no upper-case letters, spaces or
punctuation, so the program rejects "Science Fiction!!" with a regex
error; the validator in isolation would have normalized it to
"science-fiction", which is the acceptance the claim asserts. -/
theorem C6_uppercase_slug_rejected :
    categorySlugField "Science Fiction!!" =
      Except.error "string does not match regex" ∧
    validate_slug "Science Fiction!!" = Except.ok "science-fiction" := by
  exact ⟨rfl, rfl⟩

/-- C6 as amended: the slug field first enforces the regex
`[a-z0-9-]+` on the raw value, rejecting anything else before the
validator can normalize it; every accepted slug is the normalization
of the input (non-empty, allowed characters only, no consecutive and
no outer hyphens); and "---" passes the regex but is rejected because
nothing remains after normalization. -/
theorem C6_slug_field_pipeline (s : String) :
    (slugFieldRegex s = false →
      categorySlugField s = Except.error "string does not match regex") ∧
    (∀ r, categorySlugField s = Except.ok r →
      slugFieldRegex s = true ∧ r = String.mk (slugNormalize s.data) ∧
      r.data ≠ [] ∧ (∀ c ∈ r.data, slugAllowedChar c = true) ∧
      noDoubleHyphen r.data = true ∧
      (∀ c, r.data.head? = some c → c ≠ '-') ∧
      (∀ c, r.data.getLast? = some c → c ≠ '-')) ∧
    categorySlugField "---" =
      Except.error "Slug must contain at least one alphanumeric character" := by
  refine ⟨?_, ?_, rfl⟩
  · intro h
    unfold categorySlugField
    rw [if_neg (by rw [h]; exact Bool.false_ne_true)]
  · intro r h
    by_cases hre : slugFieldRegex s = true
    · refine ⟨hre, ?_⟩
      unfold categorySlugField at h
      rw [if_pos hre] at h
      unfold validate_slug at h
      by_cases h1 : s.data.isEmpty
      · rw [if_pos h1] at h
        exact absurd h (by simp)
      · rw [if_neg h1] at h
        by_cases h2 : (slugNormalize s.data).isEmpty
        · rw [if_pos h2] at h
          exact absurd h (by simp)
        · rw [if_neg h2] at h
          have hr : r = String.mk (slugNormalize s.data) := by
            cases h
            rfl
          subst hr
          have hprops := slugNormalize_props s.data
          refine ⟨rfl, ?_, hprops.1, hprops.2.1, hprops.2.2.1, hprops.2.2.2⟩
          intro he
          exact h2 (by simpa [List.isEmpty_iff] using he)
    · unfold categorySlugField at h
      rw [if_neg hre] at h
      exact absurd h (by simp)

/-- C6 witness: the amended statement at concrete inputs: the
regex-failing input is rejected, and a regex-passing input with hyphen
runs is accepted with the normal-form properties. -/
theorem C6_slug_field_pipeline_witness :
    categorySlugField "Science Fiction!!" =
      Except.error "string does not match regex" ∧
    String.data "science-fiction" ≠ [] ∧
    noDoubleHyphen (String.data "science-fiction") = true :=
  ⟨(C6_slug_field_pipeline "Science Fiction!!").1 rfl,
   ((C6_slug_field_pipeline "--science--fiction--").2.1
       "science-fiction" rfl).2.2.1,
   ((C6_slug_field_pipeline "--science--fiction--").2.1
       "science-fiction" rfl).2.2.2.2.1⟩

/- ------------------------------------------------------------------ -/
/- C7: the isbn field pipeline                                         -/
/- ------------------------------------------------------------------ -/

lemma stringMk_data (s : String) : String.mk s.data = s := rfl

lemma isbnFieldRegex_chars (s : String) (h : isbnFieldRegex s = true) :
    ∀ c ∈ s.data, isAsciiDigit c = true ∨ c = 'X' := by
  intro c hc
  unfold isbnFieldRegex at h
  rw [Bool.or_eq_true] at h
  rcases h with h | h
  · rw [Bool.and_eq_true] at h
    exact Or.inl (List.all_eq_true.mp h.2 c hc)
  · rw [Bool.and_eq_true, Bool.and_eq_true] at h
    obtain ⟨⟨hlen, hbody⟩, hlast⟩ := h
    have hne : s.data ≠ [] := by
      intro he
      rw [he] at hlen
      simp at hlen
    have hsplit := List.dropLast_append_getLast hne
    rcases List.mem_append.mp (hsplit ▸ hc) with h1 | h1
    · exact Or.inl (List.all_eq_true.mp hbody c h1)
    · have hcl : c = s.data.getLast hne := by simpa using h1
      rw [List.getLast?_eq_getLast s.data hne] at hlast
      simp only at hlast
      rw [Bool.or_eq_true] at hlast
      rcases hlast with h2 | h2
      · exact Or.inl (hcl ▸ h2)
      · exact Or.inr (hcl ▸ eq_of_beq h2)

lemma isbnFieldRegex_length (s : String) (h : isbnFieldRegex s = true) :
    s.data.length = 10 ∨ s.data.length = 13 := by
  unfold isbnFieldRegex at h
  rw [Bool.or_eq_true] at h
  rcases h with h | h
  · rw [Bool.and_eq_true] at h
    exact Or.inr (eq_of_beq h.1)
  · rw [Bool.and_eq_true, Bool.and_eq_true] at h
    exact Or.inl (eq_of_beq h.1.1)

lemma keepChar_of_digitX (c : Char) (h : isAsciiDigit c = true ∨ c = 'X') :
    (!(c == '-') && !(c == ' ')) = true := by
  rcases h with h | h
  · by_cases e1 : c = '-'
    · subst e1
      exact absurd h (by decide)
    · by_cases e2 : c = ' '
      · subst e2
        exact absurd h (by decide)
      · simp [e1, e2]
  · subst h
    decide

lemma stripIsbn_of_regex (s : String) (h : isbnFieldRegex s = true) :
    stripIsbn s = s := by
  unfold stripIsbn
  rw [List.filter_eq_self.mpr, stringMk_data]
  intro c hc
  exact keepChar_of_digitX c (isbnFieldRegex_chars s h c hc)

lemma bookIsbnField_eq (s : String) (h : isbnFieldRegex s = true) :
    bookIsbnField s =
      (if s.data.length == 10 then
        (if _validate_isbn10 s then Except.ok s
         else Except.error "Invalid ISBN-10 check digit")
       else if s.data.length == 13 then
        (if _validate_isbn13 s then Except.ok s
         else Except.error "Invalid ISBN-13 check digit")
       else Except.error "ISBN must be 10 or 13 digits") := by
  unfold bookIsbnField
  rw [if_pos h]
  unfold validate_isbn
  rw [stripIsbn_of_regex s h]

/-- C7 counterexample: the hyphenated form of a valid ISBN-13 satisfies
the claim's premise (its stripped form is exactly 13 digits with a
correct checksum) yet the `Book.isbn` field validation rejects it: the
`Field` regex runs before the stripping validator and admits no hyphens
or spaces. -/
theorem C7_hyphenated_isbn_rejected :
    bookIsbnField "978-0-7432-7356-5" =
      Except.error "string does not match regex" ∧
    stripIsbn "978-0-7432-7356-5" = "9780743273565" ∧
    (stripIsbn "978-0-7432-7356-5").data.length = 13 ∧
    _validate_isbn13 (stripIsbn "978-0-7432-7356-5") = true := by
  exact ⟨rfl, rfl, rfl, rfl⟩

/-- C7 as amended: the raw value must already match the field regex
(13 digits, or 9 digits followed by a digit or `X`); any value with a
hyphen or space is rejected before the validator can strip it; for
regex-matching values the field accepts exactly when the checksum for
the detected length holds, returning the value unchanged. -/
theorem C7_isbn_field_pipeline (s : String) :
    (∀ r, bookIsbnField s = Except.ok r → r = s) ∧
    (bookIsbnField s = Except.ok s ↔
      (isbnFieldRegex s = true ∧
        ((s.data.length = 10 ∧ _validate_isbn10 s = true) ∨
         (s.data.length = 13 ∧ _validate_isbn13 s = true)))) ∧
    (('-' ∈ s.data ∨ ' ' ∈ s.data) →
      bookIsbnField s = Except.error "string does not match regex") := by
  refine ⟨?_, ?_, ?_⟩
  · intro r h
    by_cases hre : isbnFieldRegex s = true
    · rw [bookIsbnField_eq s hre] at h
      rcases isbnFieldRegex_length s hre with h10 | h13
      · rw [if_pos (beq_iff_eq.mpr h10)] at h
        by_cases hv : _validate_isbn10 s = true
        · rw [if_pos hv] at h
          exact (Except.ok.injEq _ _ |>.mp h).symm ▸ rfl
        · rw [if_neg hv] at h
          exact absurd h (by simp)
      · have hne10 : ¬(s.data.length == 10) = true := by
          rw [h13]
          decide
        rw [if_neg hne10, if_pos (beq_iff_eq.mpr h13)] at h
        by_cases hv : _validate_isbn13 s = true
        · rw [if_pos hv] at h
          exact (Except.ok.injEq _ _ |>.mp h).symm ▸ rfl
        · rw [if_neg hv] at h
          exact absurd h (by simp)
    · unfold bookIsbnField at h
      rw [if_neg hre] at h
      exact absurd h (by simp)
  · constructor
    · intro h
      by_cases hre : isbnFieldRegex s = true
      · refine ⟨hre, ?_⟩
        rw [bookIsbnField_eq s hre] at h
        rcases isbnFieldRegex_length s hre with h10 | h13
        · rw [if_pos (beq_iff_eq.mpr h10)] at h
          by_cases hv : _validate_isbn10 s = true
          · exact Or.inl ⟨h10, hv⟩
          · rw [if_neg hv] at h
            exact absurd h (by simp)
        · have hne10 : ¬(s.data.length == 10) = true := by
            rw [h13]
            decide
          rw [if_neg hne10, if_pos (beq_iff_eq.mpr h13)] at h
          by_cases hv : _validate_isbn13 s = true
          · exact Or.inr ⟨h13, hv⟩
          · rw [if_neg hv] at h
            exact absurd h (by simp)
      · unfold bookIsbnField at h
        rw [if_neg hre] at h
        exact absurd h (by simp)
    · rintro ⟨hre, hcase⟩
      rw [bookIsbnField_eq s hre]
      rcases hcase with ⟨h10, hv⟩ | ⟨h13, hv⟩
      · rw [if_pos (beq_iff_eq.mpr h10), if_pos hv]
      · have hne10 : ¬(s.data.length == 10) = true := by
          rw [h13]
          decide
        rw [if_neg hne10, if_pos (beq_iff_eq.mpr h13), if_pos hv]
  · intro hmem
    by_cases hre : isbnFieldRegex s = true
    · exfalso
      rcases hmem with hm | hm
      · rcases isbnFieldRegex_chars s hre _ hm with h | h
        · exact absurd h (by decide)
        · exact absurd h (by decide)
      · rcases isbnFieldRegex_chars s hre _ hm with h | h
        · exact absurd h (by decide)
        · exact absurd h (by decide)
    · unfold bookIsbnField
      rw [if_neg hre]

/-- C7 witness: the amended statement evaluated at concrete inputs:
the unhyphenated Gatsby ISBN-13 is accepted unchanged, and its
hyphenated form is rejected by the regex. -/
theorem C7_isbn_field_pipeline_witness :
    bookIsbnField "9780743273565" = Except.ok "9780743273565" ∧
    bookIsbnField "978-0-7432-7356-5" =
      Except.error "string does not match regex" :=
  ⟨((C7_isbn_field_pipeline "9780743273565").2.1).mpr
      ⟨rfl, Or.inr ⟨rfl, rfl⟩⟩,
   (C7_isbn_field_pipeline "978-0-7432-7356-5").2.2 (Or.inl (by decide))⟩

/- ------------------------------------------------------------------ -/
/- C2: ISBN-13 checksum soundness and single-digit error detection     -/
/- ------------------------------------------------------------------ -/

/-- The character of a decimal digit. -/
def digitChar (d : Nat) : Char := Char.ofNat (48 + d)

/-- The 13-digit string written with the given digits. -/
def digitsToString (ds : List Nat) : String := String.mk (ds.map digitChar)

/-- A digit list is a valid ISBN-13: thirteen digits whose weighted
sum with alternating weights 1 and 3 (the final check digit carrying
weight 1) is divisible by 10. -/
def ValidISBN13 (ds : List Nat) : Prop :=
  ds.length = 13 ∧ (∀ d ∈ ds, d < 10) ∧ isbn13Sum 0 ds % 10 = 0

lemma pyDigit?_digitChar (d : Nat) (h : d < 10) :
    pyDigit? (digitChar d) = some d := by
  interval_cases d <;> decide

lemma mapM_digitChar (l : List Nat) (h : ∀ d ∈ l, d < 10) :
    (l.map digitChar).mapM pyDigit? = some l := by
  induction l with
  | nil => rfl
  | cons d ds ih =>
    rw [List.map_cons, List.mapM_cons,
      pyDigit?_digitChar d (h d (List.mem_cons_self d ds)),
      ih (fun x hx => h x (List.mem_cons_of_mem d hx))]
    rfl

lemma getD_mem {l : List Nat} {i : Nat} (h : i < l.length) : l.getD i 0 ∈ l := by
  induction l generalizing i with
  | nil => simp at h
  | cons a as ih =>
    cases i with
    | zero => exact List.mem_cons_self a as
    | succ i => exact List.mem_cons_of_mem a (ih (by simpa using h))

lemma isbn13Sum_append (xs : List Nat) (y : Nat) : ∀ i,
    isbn13Sum i (xs ++ [y]) =
      isbn13Sum i xs + y * (if (i + xs.length) % 2 == 0 then 1 else 3) := by
  induction xs with
  | nil =>
    intro i
    show y * (if i % 2 == 0 then 1 else 3) + 0 =
      0 + y * (if (i + 0) % 2 == 0 then 1 else 3)
    ring_nf
  | cons x xs ih =>
    intro i
    show x * (if i % 2 == 0 then 1 else 3) + isbn13Sum (i + 1) (xs ++ [y]) =
      (x * (if i % 2 == 0 then 1 else 3) + isbn13Sum (i + 1) xs) +
        y * (if (i + (xs.length + 1)) % 2 == 0 then 1 else 3)
    rw [ih (i + 1)]
    have he : i + 1 + xs.length = i + (xs.length + 1) := by omega
    rw [he, Nat.add_assoc]

/-- The check of `_validate_isbn13` on a pure digit string is exactly
divisibility of the full weighted sum by 10. -/
lemma validate_isbn13_digits (ds : List Nat) (h13 : ds.length = 13)
    (hd : ∀ d ∈ ds, d < 10) :
    (_validate_isbn13 (digitsToString ds) = true ↔ isbn13Sum 0 ds % 10 = 0) := by
  have hne : ds ≠ [] := by
    intro he
    rw [he] at h13
    simp at h13
  have hL : ds.getLast hne < 10 := hd _ (List.getLast_mem hne)
  have hdata : (digitsToString ds).data = ds.map digitChar := rfl
  have hdrop : (ds.map digitChar).dropLast = ds.dropLast.map digitChar :=
    (List.map_dropLast digitChar ds).symm
  have hlast : (ds.map digitChar).getLast? = some (digitChar (ds.getLast hne)) := by
    rw [List.getLast?_map, List.getLast?_eq_getLast ds hne]
    rfl
  have hbody : ∀ d ∈ ds.dropLast, d < 10 := by
    intro d hdm
    refine hd d ?_
    have hsplit := List.dropLast_append_getLast hne
    exact hsplit ▸ List.mem_append.mpr (Or.inl hdm)
  have hval : _validate_isbn13 (digitsToString ds) =
      ((10 - isbn13Sum 0 ds.dropLast % 10) % 10 == ds.getLast hne) := by
    unfold _validate_isbn13
    rw [hdata, hdrop, hlast, mapM_digitChar _ hbody]
    show (match pyDigit? (digitChar (ds.getLast hne)) with
          | some lastd => (10 - isbn13Sum 0 ds.dropLast % 10) % 10 == lastd
          | none => false) =
        ((10 - isbn13Sum 0 ds.dropLast % 10) % 10 == ds.getLast hne)
    rw [pyDigit?_digitChar _ hL]
  have hlen12 : ds.dropLast.length = 12 := by
    rw [List.length_dropLast, h13]
  have hsum : isbn13Sum 0 ds =
      isbn13Sum 0 ds.dropLast + ds.getLast hne * 1 := by
    conv_lhs => rw [← List.dropLast_append_getLast hne]
    rw [isbn13Sum_append, hlen12]
    norm_num
  rw [hval, hsum, beq_iff_eq]
  omega

lemma isbn13Sum_set_key (ds : List Nat) : ∀ i k d2, i < ds.length →
    isbn13Sum k (ds.set i d2) +
        (if (k + i) % 2 == 0 then 1 else 3) * ds.getD i 0 =
      isbn13Sum k ds + (if (k + i) % 2 == 0 then 1 else 3) * d2 := by
  induction ds with
  | nil =>
    intro i k d2 hi
    simp at hi
  | cons d ds ih =>
    intro i k d2 hi
    cases i with
    | zero =>
      show (d2 * (if k % 2 == 0 then 1 else 3) + isbn13Sum (k + 1) ds) +
          (if (k + 0) % 2 == 0 then 1 else 3) * d =
        (d * (if k % 2 == 0 then 1 else 3) + isbn13Sum (k + 1) ds) +
          (if (k + 0) % 2 == 0 then 1 else 3) * d2
      have he : k + 0 = k := rfl
      rw [he]
      ring
    | succ i =>
      have hi2 : i < ds.length := by simpa using hi
      show (d * (if k % 2 == 0 then 1 else 3) + isbn13Sum (k + 1) (ds.set i d2)) +
          (if (k + (i + 1)) % 2 == 0 then 1 else 3) * ds.getD i 0 =
        (d * (if k % 2 == 0 then 1 else 3) + isbn13Sum (k + 1) ds) +
          (if (k + (i + 1)) % 2 == 0 then 1 else 3) * d2
      have he : k + (i + 1) = k + 1 + i := by omega
      rw [he]
      have h3 := ih i (k + 1) d2 hi2
      calc (d * (if k % 2 == 0 then 1 else 3) + isbn13Sum (k + 1) (ds.set i d2)) +
            (if (k + 1 + i) % 2 == 0 then 1 else 3) * ds.getD i 0
          = d * (if k % 2 == 0 then 1 else 3) +
            (isbn13Sum (k + 1) (ds.set i d2) +
              (if (k + 1 + i) % 2 == 0 then 1 else 3) * ds.getD i 0) := by ring
        _ = d * (if k % 2 == 0 then 1 else 3) +
            (isbn13Sum (k + 1) ds +
              (if (k + 1 + i) % 2 == 0 then 1 else 3) * d2) := by rw [h3]
        _ = (d * (if k % 2 == 0 then 1 else 3) + isbn13Sum (k + 1) ds) +
            (if (k + 1 + i) % 2 == 0 then 1 else 3) * d2 := by ring

/-- C2: every valid ISBN-13 digit string passes `_validate_isbn13`,
and changing any single digit to a different digit makes it fail. -/
theorem C2_isbn13_checksum (ds : List Nat) (h : ValidISBN13 ds) :
    _validate_isbn13 (digitsToString ds) = true ∧
    ∀ i d2, i < ds.length → d2 < 10 → d2 ≠ ds.getD i 0 →
      _validate_isbn13 (digitsToString (ds.set i d2)) = false := by
  obtain ⟨h13, hlt, hsum⟩ := h
  constructor
  · exact (validate_isbn13_digits ds h13 hlt).mpr hsum
  · intro i d2 hi hd2 hne
    have h13b : (ds.set i d2).length = 13 := by
      rw [List.length_set]
      exact h13
    have hltb : ∀ d ∈ ds.set i d2, d < 10 := by
      intro d hdm
      rcases List.mem_or_eq_of_mem_set hdm with hm | hm
      · exact hlt d hm
      · exact hm ▸ hd2
    have key := isbn13Sum_set_key ds i 0 d2 hi
    rw [Nat.zero_add] at key
    have hg : ds.getD i 0 < 10 := hlt _ (getD_mem hi)
    have hmod : isbn13Sum 0 (ds.set i d2) % 10 ≠ 0 := by
      by_cases hp : (i % 2 == 0) = true
      · rw [if_pos hp] at key
        omega
      · rw [if_neg hp] at key
        omega
    rw [Bool.eq_false_iff]
    intro hT
    exact hmod ((validate_isbn13_digits _ h13b hltb).mp hT)

/-- The digits of the Gatsby ISBN-13 used across the spec examples. -/
def gatsbyDigits : List Nat := [9, 7, 8, 0, 7, 4, 3, 2, 7, 3, 5, 6, 5]

/-- C2 witness: the concrete valid ISBN-13 9780743273565 passes, and
flipping its first digit from 9 to 8 makes it fail. -/
theorem C2_isbn13_checksum_witness :
    _validate_isbn13 (digitsToString gatsbyDigits) = true ∧
    _validate_isbn13 (digitsToString (gatsbyDigits.set 0 8)) = false := by
  have hv : ValidISBN13 gatsbyDigits := ⟨rfl, by decide, rfl⟩
  exact ⟨(C2_isbn13_checksum gatsbyDigits hv).1,
    (C2_isbn13_checksum gatsbyDigits hv).2 0 8 (by decide) (by decide)
      (by decide)⟩
